import Mathlib

/-!
Shallow embedding of `biotite.structure.basepairs` (basepair identification
via the DSSR geometric criteria), together with the pieces of
`biotite.structure.filter` that it uses.  External collaborators that are not
among the analysed sources (`CellList`, `superimpose`, `hbond`, the
nucleotide-name table behind `filter_nucleotides`, and the utility functions
`distance` / `norm_vector`) are modelled from the specification; the
definitions concerned say so in their doc comments.

In the source, `_match_base` uses Python `raise` on `Warning` instances
(`UnexpectedStructureWarning`, `IncompleteStructureWarning`).  A `raise` of a
`Warning` instance propagates as an exception, so those control paths are
embedded as `Except.error`; the `return` statements written after each
`raise` are unreachable.
-/

open scoped Classical

/-- A 3-dimensional real coordinate vector (one row of a NumPy `(n, 3)`
coordinate array). -/
structure Vec3 where
  x : ℝ
  y : ℝ
  z : ℝ

/-- Componentwise vector addition. -/
def vadd (u v : Vec3) : Vec3 := ⟨u.x + v.x, u.y + v.y, u.z + v.z⟩

/-- Componentwise vector subtraction. -/
def vsub (u v : Vec3) : Vec3 := ⟨u.x - v.x, u.y - v.y, u.z - v.z⟩

/-- Scalar multiple of a vector. -/
def vsmul (c : ℝ) (v : Vec3) : Vec3 := ⟨c * v.x, c * v.y, c * v.z⟩

/-- Euclidean inner product of two coordinate vectors (`np.dot`). -/
def dot3 (u v : Vec3) : ℝ := u.x * v.x + u.y * v.y + u.z * v.z

/-- Modelled from the spec: `biotite.structure.util.distance` is not among
the analysed sources.  All separations in the spec are Euclidean distances in
Å, so it is the Euclidean norm of the coordinate difference
(`np.linalg.norm(v1 - v2)`). -/
noncomputable def distance (u v : Vec3) : ℝ :=
  Real.sqrt (dot3 (vsub u v) (vsub u v))

/-- Modelled from the spec: `biotite.structure.util.norm_vector` is not among
the analysed sources.  Per the spec (§3: basis vectors are re-normalized to
unit length after transformation) it scales a vector by the inverse of its
Euclidean norm. -/
noncomputable def normVector (v : Vec3) : Vec3 :=
  vsmul (1 / Real.sqrt (dot3 v v)) v

/-- One atom record: the annotation categories of a biotite `Atom` that
`basepairs.py` reads. -/
structure PAtom where
  coord : Vec3
  atom_name : String
  res_name : String
  res_id : Int
  chain_id : String
  element : String

instance : Inhabited PAtom := ⟨⟨⟨0, 0, 0⟩, "", "", 0, "", ""⟩⟩

/-- A recorded basepair candidate: the flat list
`[res_id, chain_id, res_id, chain_id]` that
`_get_proximate_basepair_candidates` appends. -/
structure Cand where
  res_id1 : Int
  chain_id1 : String
  res_id2 : Int
  chain_id2 : String
deriving DecidableEq

/-- The same candidate read in the opposite order (`partner + candidate`). -/
def revCand (c : Cand) : Cand := ⟨c.res_id2, c.chain_id2, c.res_id1, c.chain_id1⟩

/-- The warning classes from `biotite.structure.error` that `basepairs.py`
raises.  Since Python `raise` of a `Warning` instance is an exception, these
are the error values of the `Except` embedding. -/
inductive Warn where
  | unexpectedStructure (msg : String)
  | incompleteStructure (msg : String)
deriving DecidableEq

/-- A template atom `Atom([x, y, z], atom_name=..., res_name=...)`; the
annotations that are not given take biotite's default values. -/
def stdAtom (cx cy cz : ℝ) (an rn : String) : PAtom :=
  ⟨⟨cx, cy, cz⟩, an, rn, 0, "", ""⟩

/-- `_get_1d_boolean_mask(size, true_ids)`: a boolean mask that is true
exactly at the listed indices. -/
def get1dBooleanMask (size : Nat) (trueIds : List Nat) : List Bool :=
  (List.range size).map (fun i => decide (i ∈ trueIds))

/-- Componentwise mean of a list of coordinates
(`np.mean(..., axis=-2)`). -/
noncomputable def centroid (vs : List Vec3) : Vec3 :=
  vsmul (1 / (vs.length : ℝ)) (vs.foldl vadd ⟨0, 0, 0⟩)

/-- One standard-base description: the two atom-naming variants (PDB format
V2 and V3), the aromatic ring center coordinates, and the hydrogen-bond
donor/acceptor masks over the template atoms. -/
structure StdBase where
  pdbv2 : List PAtom
  pdbv3 : List PAtom
  ringCenters : List Vec3
  donorMask : List Bool
  acceptorMask : List Bool

/-- Replace the atom name at one position
(`copy(); atom_name[[i]] = [n]`). -/
def renameAtom (atoms : List PAtom) (i : Nat) (n : String) : List PAtom :=
  atoms.enum.map (fun p => if p.1 = i then { p.2 with atom_name := n } else p.2)

/-- Atom 1 of `_get_std_adenine`. -/
def adenineAtom1 : PAtom := stdAtom (-2.479) 5.346 0 "C1*" "A"
/-- Atom 2 of `_get_std_adenine`. -/
def adenineAtom2 : PAtom := stdAtom (-1.291) 4.498 0 "N9" "A"
/-- Atom 3 of `_get_std_adenine`. -/
def adenineAtom3 : PAtom := stdAtom 0.024 4.897 0 "C8" "A"
/-- Atom 4 of `_get_std_adenine`. -/
def adenineAtom4 : PAtom := stdAtom 0.877 3.902 0 "N7" "A"
/-- Atom 5 of `_get_std_adenine`. -/
def adenineAtom5 : PAtom := stdAtom 0.071 2.771 0 "C5" "A"
/-- Atom 6 of `_get_std_adenine`. -/
def adenineAtom6 : PAtom := stdAtom 0.369 1.398 0 "C6" "A"
/-- Atom 7 of `_get_std_adenine`. -/
def adenineAtom7 : PAtom := stdAtom 1.611 0.909 0 "N6" "A"
/-- Atom 8 of `_get_std_adenine`. -/
def adenineAtom8 : PAtom := stdAtom (-0.668) 0.532 0 "N1" "A"
/-- Atom 9 of `_get_std_adenine`. -/
def adenineAtom9 : PAtom := stdAtom (-1.912) 1.023 0 "C2" "A"
/-- Atom 10 of `_get_std_adenine`. -/
def adenineAtom10 : PAtom := stdAtom (-2.320) 2.290 0 "N3" "A"
/-- Atom 11 of `_get_std_adenine`. -/
def adenineAtom11 : PAtom := stdAtom (-1.267) 3.124 0 "C4" "A"

/-- The PDBv2 variant of the standard adenine. -/
def adenineV2 : List PAtom :=
  [adenineAtom1, adenineAtom2, adenineAtom3, adenineAtom4, adenineAtom5,
   adenineAtom6, adenineAtom7, adenineAtom8, adenineAtom9, adenineAtom10,
   adenineAtom11]

/-- `_get_std_adenine`. -/
noncomputable def stdAdenine : StdBase where
  pdbv2 := adenineV2
  pdbv3 := renameAtom adenineV2 0 "C1'"
  ringCenters :=
    [ centroid [adenineAtom5.coord, adenineAtom6.coord, adenineAtom8.coord,
        adenineAtom9.coord, adenineAtom10.coord, adenineAtom11.coord]
    , centroid [adenineAtom2.coord, adenineAtom3.coord, adenineAtom4.coord,
        adenineAtom5.coord, adenineAtom11.coord] ]
  donorMask := get1dBooleanMask 11 [1, 6]
  acceptorMask := get1dBooleanMask 11 [1, 3, 6, 7, 9]

/-- Atom 1 of `_get_std_cytosine`. -/
def cytosineAtom1 : PAtom := stdAtom (-2.477) 5.402 0 "C1*" "C"
/-- Atom 2 of `_get_std_cytosine`. -/
def cytosineAtom2 : PAtom := stdAtom (-1.285) 4.542 0 "N1" "C"
/-- Atom 3 of `_get_std_cytosine`. -/
def cytosineAtom3 : PAtom := stdAtom (-1.472) 3.158 0 "C2" "C"
/-- Atom 4 of `_get_std_cytosine`. -/
def cytosineAtom4 : PAtom := stdAtom (-2.628) 2.709 0 "O2" "C"
/-- Atom 5 of `_get_std_cytosine`. -/
def cytosineAtom5 : PAtom := stdAtom (-0.391) 2.344 0 "N3" "C"
/-- Atom 6 of `_get_std_cytosine`. -/
def cytosineAtom6 : PAtom := stdAtom 0.837 2.868 0 "C4" "C"
/-- Atom 7 of `_get_std_cytosine`. -/
def cytosineAtom7 : PAtom := stdAtom 1.875 2.027 0 "N4" "C"
/-- Atom 8 of `_get_std_cytosine`. -/
def cytosineAtom8 : PAtom := stdAtom 1.056 4.275 0 "C5" "C"
/-- Atom 9 of `_get_std_cytosine`. -/
def cytosineAtom9 : PAtom := stdAtom (-0.023) 5.068 0 "C6" "C"

/-- The PDBv2 variant of the standard cytosine. -/
def cytosineV2 : List PAtom :=
  [cytosineAtom1, cytosineAtom2, cytosineAtom3, cytosineAtom4, cytosineAtom5,
   cytosineAtom6, cytosineAtom7, cytosineAtom8, cytosineAtom9]

/-- `_get_std_cytosine`. -/
noncomputable def stdCytosine : StdBase where
  pdbv2 := cytosineV2
  pdbv3 := renameAtom cytosineV2 0 "C1'"
  ringCenters :=
    [ centroid [cytosineAtom2.coord, cytosineAtom3.coord, cytosineAtom5.coord,
        cytosineAtom6.coord, cytosineAtom8.coord, cytosineAtom9.coord] ]
  donorMask := get1dBooleanMask 9 [1, 6]
  acceptorMask := get1dBooleanMask 9 [1, 3, 4, 6]

/-- Atom 1 of `_get_std_guanine`. -/
def guanineAtom1 : PAtom := stdAtom (-2.477) 5.399 0 "C1*" "G"
/-- Atom 2 of `_get_std_guanine`. -/
def guanineAtom2 : PAtom := stdAtom (-1.289) 4.551 0 "N9" "G"
/-- Atom 3 of `_get_std_guanine`. -/
def guanineAtom3 : PAtom := stdAtom 0.023 4.962 0 "C8" "G"
/-- Atom 4 of `_get_std_guanine`. -/
def guanineAtom4 : PAtom := stdAtom 0.870 3.969 0 "N7" "G"
/-- Atom 5 of `_get_std_guanine`. -/
def guanineAtom5 : PAtom := stdAtom 0.071 2.833 0 "C5" "G"
/-- Atom 6 of `_get_std_guanine`. -/
def guanineAtom6 : PAtom := stdAtom 0.424 1.460 0 "C6" "G"
/-- Atom 7 of `_get_std_guanine`. -/
def guanineAtom7 : PAtom := stdAtom 1.554 0.955 0 "O6" "G"
/-- Atom 8 of `_get_std_guanine`. -/
def guanineAtom8 : PAtom := stdAtom (-0.700) 0.641 0 "N1" "G"
/-- Atom 9 of `_get_std_guanine`. -/
def guanineAtom9 : PAtom := stdAtom (-1.999) 1.087 0 "C2" "G"
/-- Atom 10 of `_get_std_guanine`. -/
def guanineAtom10 : PAtom := stdAtom (-2.949) 0.139 (-0.001) "N2" "G"
/-- Atom 11 of `_get_std_guanine`. -/
def guanineAtom11 : PAtom := stdAtom (-2.342) 2.364 0.001 "N3" "G"
/-- Atom 12 of `_get_std_guanine`. -/
def guanineAtom12 : PAtom := stdAtom (-1.265) 3.177 0 "C4" "G"

/-- The PDBv2 variant of the standard guanine. -/
def guanineV2 : List PAtom :=
  [guanineAtom1, guanineAtom2, guanineAtom3, guanineAtom4, guanineAtom5,
   guanineAtom6, guanineAtom7, guanineAtom8, guanineAtom9, guanineAtom10,
   guanineAtom11, guanineAtom12]

/-- `_get_std_guanine`. -/
noncomputable def stdGuanine : StdBase where
  pdbv2 := guanineV2
  pdbv3 := renameAtom guanineV2 0 "C1'"
  ringCenters :=
    [ centroid [guanineAtom5.coord, guanineAtom6.coord, guanineAtom8.coord,
        guanineAtom9.coord, guanineAtom11.coord, guanineAtom12.coord]
    , centroid [guanineAtom2.coord, guanineAtom3.coord, guanineAtom4.coord,
        guanineAtom5.coord, guanineAtom12.coord] ]
  donorMask := get1dBooleanMask 12 [1, 7, 9]
  acceptorMask := get1dBooleanMask 12 [1, 3, 6, 7, 9, 10]

/-- Atom 1 of `_get_std_thymine`. -/
def thymineAtom1 : PAtom := stdAtom (-2.481) 5.354 0 "C1*" "T"
/-- Atom 2 of `_get_std_thymine`. -/
def thymineAtom2 : PAtom := stdAtom (-1.284) 4.500 0 "N1" "T"
/-- Atom 3 of `_get_std_thymine`. -/
def thymineAtom3 : PAtom := stdAtom (-1.462) 3.135 0 "C2" "T"
/-- Atom 4 of `_get_std_thymine`. -/
def thymineAtom4 : PAtom := stdAtom (-2.562) 2.608 0 "O2" "T"
/-- Atom 5 of `_get_std_thymine`. -/
def thymineAtom5 : PAtom := stdAtom (-0.298) 2.407 0 "N3" "T"
/-- Atom 6 of `_get_std_thymine`. -/
def thymineAtom6 : PAtom := stdAtom 0.994 2.897 0 "C4" "T"
/-- Atom 7 of `_get_std_thymine`. -/
def thymineAtom7 : PAtom := stdAtom 1.944 2.119 0 "O4" "T"
/-- Atom 8 of `_get_std_thymine`. -/
def thymineAtom8 : PAtom := stdAtom 1.106 4.338 0 "C5" "T"
/-- Atom 9 of `_get_std_thymine`. -/
def thymineAtom9 : PAtom := stdAtom 2.466 4.961 0.001 "C5M" "T"
/-- Atom 10 of `_get_std_thymine`. -/
def thymineAtom10 : PAtom := stdAtom (-0.024) 5.057 0 "C6" "T"

/-- The PDBv2 variant of the standard thymine. -/
def thymineV2 : List PAtom :=
  [thymineAtom1, thymineAtom2, thymineAtom3, thymineAtom4, thymineAtom5,
   thymineAtom6, thymineAtom7, thymineAtom8, thymineAtom9, thymineAtom10]

/-- `_get_std_thymine`: the PDBv3 variant renames atoms 0 and 8
(`atom_name[[0, 8]] = ["C1'", "C7"]`). -/
noncomputable def stdThymine : StdBase where
  pdbv2 := thymineV2
  pdbv3 := renameAtom (renameAtom thymineV2 0 "C1'") 8 "C7"
  ringCenters :=
    [ centroid [thymineAtom2.coord, thymineAtom3.coord, thymineAtom5.coord,
        thymineAtom6.coord, thymineAtom8.coord, thymineAtom10.coord] ]
  donorMask := get1dBooleanMask 10 [1, 4]
  acceptorMask := get1dBooleanMask 10 [1, 3, 4, 6]

/-- Atom 1 of `_get_std_uracil`. -/
def uracilAtom1 : PAtom := stdAtom (-2.481) 5.354 0 "C1*" "U"
/-- Atom 2 of `_get_std_uracil`. -/
def uracilAtom2 : PAtom := stdAtom (-1.284) 4.500 0 "N1" "U"
/-- Atom 3 of `_get_std_uracil`. -/
def uracilAtom3 : PAtom := stdAtom (-1.462) 3.131 0 "C2" "U"
/-- Atom 4 of `_get_std_uracil`. -/
def uracilAtom4 : PAtom := stdAtom (-2.563) 2.608 0 "O2" "U"
/-- Atom 5 of `_get_std_uracil`. -/
def uracilAtom5 : PAtom := stdAtom (-0.302) 2.397 0 "N3" "U"
/-- Atom 6 of `_get_std_uracil`. -/
def uracilAtom6 : PAtom := stdAtom 0.989 2.884 0 "C4" "U"
/-- Atom 7 of `_get_std_uracil`. -/
def uracilAtom7 : PAtom := stdAtom 1.935 2.094 (-0.001) "O4" "U"
/-- Atom 8 of `_get_std_uracil`. -/
def uracilAtom8 : PAtom := stdAtom 1.089 4.311 0 "C5" "U"
/-- Atom 9 of `_get_std_uracil`. -/
def uracilAtom9 : PAtom := stdAtom (-0.024) 5.053 0 "C6" "U"

/-- The PDBv2 variant of the standard uracil. -/
def uracilV2 : List PAtom :=
  [uracilAtom1, uracilAtom2, uracilAtom3, uracilAtom4, uracilAtom5,
   uracilAtom6, uracilAtom7, uracilAtom8, uracilAtom9]

/-- `_get_std_uracil`. -/
noncomputable def stdUracil : StdBase where
  pdbv2 := uracilV2
  pdbv3 := renameAtom uracilV2 0 "C1'"
  ringCenters :=
    [ centroid [uracilAtom2.coord, uracilAtom3.coord, uracilAtom5.coord,
        uracilAtom6.coord, uracilAtom8.coord, uracilAtom9.coord] ]
  donorMask := get1dBooleanMask 9 [1, 4]
  acceptorMask := get1dBooleanMask 9 [1, 3, 4, 6]

/-- `_adenine_containing_nucleotides`. -/
def adenineContainingNucleotides : List String := ["A", "DA"]
/-- `_thymine_containing_nucleotides`. -/
def thymineContainingNucleotides : List String := ["T", "DT"]
/-- `_cytosine_containing_nucleotides`. -/
def cytosineContainingNucleotides : List String := ["C", "DC"]
/-- `_guanine_containing_nucleotides`. -/
def guanineContainingNucleotides : List String := ["G", "DG"]
/-- `_uracil_containing_nucleotides`. -/
def uracilContainingNucleotides : List String := ["U", "DU"]

/-- Modelled from the spec (§6): the result of the external rigid
least-squares superposition is "(a) the subset of the first set actually used
after name-matching, (b) a transformation (rotation + two translations)".
The rotation is kept as an opaque coordinate map, applied row-wise like
`np.dot(rot, vectors.T).T`. -/
structure Transformation where
  trans1 : Vec3
  rot : Vec3 → Vec3
  trans2 : Vec3

/-- Row-wise application of a transformation as written in `_match_base`
(`vectors += trans1; vectors = np.dot(rot, vectors.T).T;
vectors += trans2`). -/
def applyTransformation (t : Transformation) (v : Vec3) : Vec3 :=
  vadd (t.rot (vadd v t.trans1)) t.trans2

/-- Modelled from the spec (§6): the external `superimpose` collaborator as an
oracle mapping a `(fixed, mobile)` argument pair to the fitted atom set and
the transformation. -/
structure SuperimposeOracle where
  run : List PAtom → List PAtom → List PAtom × Transformation

/-- Modelled from the spec (§6): the external geometric hydrogen-bond detector
`hbond`; only the number of detected bonds is used by
`_check_dssr_criteria`. -/
structure HbondOracle where
  count : List PAtom → List Bool → List Bool → Nat

/-- The transformed standard-frame vectors of one matched base: origin, the
three re-normalized basis vectors and the transformed aromatic ring centers,
all in structure coordinates (the rows of `transformed_std_vectors[i]`). -/
structure BaseVectors where
  origin : Vec3
  xv : Vec3
  yv : Vec3
  zv : Vec3
  ringCenters : List Vec3

/-- The data `_match_base` returns for one successfully matched base:
the base atoms, the hydrogen-bond donor/acceptor masks, the
explicit-hydrogens flag and the transformed standard vectors. -/
structure MatchedBase where
  base : List PAtom
  donorMask : List Bool
  acceptorMask : List Bool
  containsHydrogens : Bool
  vectors : BaseVectors

/-- `np.sum(np.in1d(xs, ys))`: how many entries of `xs` occur in `ys`. -/
def countIn (xs ys : List String) : Nat :=
  (xs.filter (fun s => decide (s ∈ ys))).length

/-- NumPy boolean-mask indexing `arr[mask]`. -/
def maskFilter (atoms : List PAtom) (mask : List Bool) : List PAtom :=
  (atoms.zip mask).filterMap (fun p => if p.2 then some p.1 else none)

/-- `_filter_atom_type(atom_array, atom_names)`: the mask of atoms having one
of the desired atom names and a defined residue id. -/
def filterAtomTypeMask (atoms : List PAtom) (atomNames : List String) : List Bool :=
  atoms.map (fun a => decide (a.atom_name ∈ atomNames) && decide (a.res_id ≠ -1))

/-- `_filter_residues` with a `chain_id` argument, applied as a subscript:
the atoms carrying the candidate's residue id and chain id. -/
def filterResidues (atoms : List PAtom) (resId : Int) (chainId : String) : List PAtom :=
  atoms.filter (fun a => decide (a.res_id = resId) && decide (a.chain_id = chainId))

/-- The names of the atoms of a list. -/
def atomNames (atoms : List PAtom) : List String := atoms.map (fun a => a.atom_name)

/-- The PDBv3/PDBv2 nomenclature choice of `_match_base`: the modern variant
is selected exactly when strictly more of its atom names occur among the
residue's atom names
(`np.sum(np.in1d(std_base[1].atom_name, base.atom_name)) >
np.sum(np.in1d(std_base[0].atom_name, base.atom_name))`). -/
def selectVariant (std : StdBase) (names : List String) : List PAtom :=
  if countIn (atomNames std.pdbv3) names > countIn (atomNames std.pdbv2) names
  then std.pdbv3 else std.pdbv2

/-- The body of `_match_base` after the base-type dispatch has selected a
standard base: nomenclature-variant choice, superposition, transformation of
the standard vectors, and the completeness branch.  The two `raise`
statements are `Except.error`; the statements written after each `raise`
(the template substitution and `return None`) are unreachable in the
source. -/
noncomputable def matchStd (so : SuperimposeOracle) (base : List PAtom)
    (minAtomsPerBase : Nat) (std : StdBase) : Except Warn MatchedBase :=
  let stdBase := selectVariant std (atomNames base)
  let fixed := base.filter (fun a => decide (a.atom_name ∈ atomNames stdBase))
  let mobile := stdBase.filter (fun a => decide (a.atom_name ∈ atomNames base))
  let fitted := (so.run fixed mobile).1
  let tf := (so.run fixed mobile).2
  let o := applyTransformation tf ⟨0, 0, 0⟩
  let vecs : BaseVectors :=
    ⟨o,
     normVector (vsub (applyTransformation tf ⟨1, 0, 0⟩) o),
     normVector (vsub (applyTransformation tf ⟨0, 1, 0⟩) o),
     normVector (vsub (applyTransformation tf ⟨0, 0, 1⟩) o),
     std.ringCenters.map (applyTransformation tf)⟩
  let lengthDifference : Int := (stdBase.length : Int) - (fitted.length : Int)
  if lengthDifference > 0 ∧ fitted.length ≥ minAtomsPerBase then
    Except.error (Warn.incompleteStructure
      "Base is not complete. Attempting to emulate with std_base.")
  else if lengthDifference > 0 then
    Except.error (Warn.incompleteStructure
      "Base is smaller than 3 atoms. Unable to check for basepair.")
  else
    let baseAtomMask := base.map (fun a =>
      decide (a.atom_name ∈ atomNames stdBase) || decide (a.element = "H"))
    let returnBase := maskFilter base baseAtomMask
    let donorMask := filterAtomTypeMask returnBase
      (atomNames (maskFilter stdBase std.donorMask))
    let acceptorMask := filterAtomTypeMask returnBase
      (atomNames (maskFilter stdBase std.acceptorMask))
    let containsHydrogens := (returnBase.map (fun a => a.element)).contains "H"
    Except.ok ⟨returnBase, donorMask, acceptorMask, containsHydrogens, vecs⟩

/-- `_match_base`: dispatch on `base[0].res_name` over the five recognized
base identity sets; an unrecognized residue name raises
`UnexpectedStructureWarning` (an exception), making the written
`return None` unreachable. -/
noncomputable def matchBase (so : SuperimposeOracle) (base : List PAtom)
    (minAtomsPerBase : Nat) : Except Warn MatchedBase :=
  let rn := (base.headD default).res_name
  if rn ∈ adenineContainingNucleotides then
    matchStd so base minAtomsPerBase stdAdenine
  else if rn ∈ thymineContainingNucleotides then
    matchStd so base minAtomsPerBase stdThymine
  else if rn ∈ cytosineContainingNucleotides then
    matchStd so base minAtomsPerBase stdCytosine
  else if rn ∈ guanineContainingNucleotides then
    matchStd so base minAtomsPerBase stdGuanine
  else if rn ∈ uracilContainingNucleotides then
    matchStd so base minAtomsPerBase stdUracil
  else
    Except.error (Warn.unexpectedStructure
      "Base Type not supported. Unable to check for basepair")

/-- `_check_hbonds`: iterate both ordered (donor base, acceptor base) role
assignments — the `zip` of the base/mask lists with their reversals — and
report a plausible hydrogen bond as soon as a donor-masked atom and an
acceptor-masked atom lie at distance at most 4.0 Å. -/
noncomputable def checkHbonds (m0 m1 : MatchedBase) : Bool :=
  [(m0, m1), (m1, m0)].any (fun pr =>
    (maskFilter pr.1.base pr.1.donorMask).any (fun donorAtom =>
      (maskFilter pr.2.base pr.2.acceptorMask).any (fun acceptorAtom =>
        decide (distance acceptorAtom.coord donorAtom.coord ≤ 4.0))))

/-- The loop of `_check_base_stacking` that collects the normalized distance
vectors between aromatic ring centers (one from each base) that are at most
4.5 Å apart, in iteration order. -/
noncomputable def qualifyingNdvs (v0 v1 : BaseVectors) : List Vec3 :=
  v0.ringCenters.flatMap (fun rc1 =>
    v1.ringCenters.filterMap (fun rc2 =>
      if distance rc1 rc2 ≤ 4.5 then some (normVector (vsub rc2 rc1)) else none))

/-- `_check_base_stacking` (the Gabb criteria): no qualifying ring-center
pair means no stacking (`wrongdistance`); then the normal vectors must be at
most 23° apart; then some qualifying normalized distance vector must be at
most 40° from one of the two normal vectors. -/
noncomputable def checkBaseStacking (v0 v1 : BaseVectors) : Bool :=
  let ndvs := qualifyingNdvs v0 v1
  if ndvs.isEmpty then false
  else if ¬ Real.arccos (dot3 v0.zv v1.zv) ≤ 23 * Real.pi / 180 then false
  else [v0, v1].any (fun v => ndvs.any (fun ndv =>
    decide (Real.arccos (dot3 v.zv ndv) ≤ 40 * Real.pi / 180)))

/-- Determinant of the 3×3 matrix whose columns are `a`, `b`, `c`. -/
def det3 (a b c : Vec3) : ℝ :=
  a.x * (b.y * c.z - b.z * c.y) - b.x * (a.y * c.z - a.z * c.y)
    + c.x * (a.y * b.z - a.z * b.y)

/-- The first component of the solution of the 3×3 linear system whose
coefficient matrix has columns `a`, `b`, `c` and whose right-hand side is `d`
(`np.linalg.solve(np.vstack((a, b, c)).T, d)[0]`), written out by Cramer's
rule; it is the unique solution component whenever the system is nonsingular,
which holds for the orthonormal frames produced by `_match_base`. -/
noncomputable def solveFirst (a b c d : Vec3) : ℝ := det3 d b c / det3 a b c

/-- The five sequential criteria of `_check_dssr_criteria`, evaluated on two
successfully matched bases; every `if not ...: return False` of the source is
one nested branch here. -/
noncomputable def dssrAccept (hb : HbondOracle) (m0 m1 : MatchedBase) : Bool :=
  let v0 := m0.vectors
  let v1 := m1.vectors
  if ¬ distance v0.origin v1.origin ≤ 15 then false
  else
    let t := solveFirst v0.xv v0.yv (vsmul (-1) v0.zv) (vsub v1.origin v0.origin)
    let intercept := vadd v1.origin (vsmul t v0.zv)
    if ¬ distance v1.origin intercept ≤ 2.5 then false
    else if ¬ Real.arccos (dot3 v0.zv v1.zv) ≥ 115 * Real.pi / 180 then false
    else if checkBaseStacking v0 v1 then false
    else if m0.containsHydrogens && m1.containsHydrogens then
      if hb.count (m0.base ++ m1.base)
          (List.replicate (m0.base ++ m1.base).length true)
          (List.replicate (m0.base ++ m1.base).length true) = 0 then false
      else true
    else if ¬ checkHbonds m0 m1 = true then false
    else true

/-- `_check_dssr_criteria`: match both bases — an exception raised by
`_match_base` propagates, and the `is None` test of the source is unreachable
because the source raises instead of returning `None` — then evaluate the
five criteria. -/
noncomputable def checkDssrCriteria (so : SuperimposeOracle) (hb : HbondOracle)
    (base1 base2 : List PAtom) (minAtomsPerBase : Nat) : Except Warn Bool :=
  match matchBase so base1 minAtomsPerBase with
  | Except.error w => Except.error w
  | Except.ok m0 =>
    match matchBase so base2 minAtomsPerBase with
    | Except.error w => Except.error w
    | Except.ok m1 => Except.ok (dssrAccept hb m0 m1)

/-- The candidate entry `[res_id, chain_id] + [res_id, chain_id]` built from
two anchor atoms. -/
def candOf (a b : PAtom) : Cand := ⟨a.res_id, a.chain_id, b.res_id, b.chain_id⟩

/-- Modelled from the spec (§6, §4.1, §8): the adjacency produced by
`CellList(c1sugars, max_cutoff).create_adjacency_matrix(max_cutoff)` — the
external spatial index — relates the anchor atoms within `max_cutoff` of each
other, with an inclusive boundary. -/
noncomputable def adjacent (maxCutoff : ℝ) (a b : PAtom) : Prop :=
  distance a.coord b.coord ≤ maxCutoff

/-- One iteration of the `np.ndindex` loop of
`_get_proximate_basepair_candidates` for the index pair `p` (the enumerated
indices are always in range, so total `getD` indexing is used). -/
noncomputable def candStep (sugars : List PAtom) (maxCutoff minCutoff : ℝ)
    (acc : List Cand) (p : Nat × Nat) : List Cand :=
  let ai := sugars.getD p.1 default
  let aj := sugars.getD p.2 default
  if adjacent maxCutoff ai aj then
    if distance ai.coord aj.coord > minCutoff ∧ candOf aj ai ∉ acc then
      acc ++ [candOf ai aj]
    else acc
  else acc

/-- Row-major enumeration of all index pairs of a square matrix
(`np.ndindex(adjacency_matrix.shape)`). -/
def ndindex (n : Nat) : List (Nat × Nat) :=
  (List.range n).flatMap (fun i => (List.range n).map (fun j => (i, j)))

/-- The anchor-atom selection of `_get_proximate_basepair_candidates`:
atoms of nucleotide residues named C1' under either nomenclature
(`filter_nucleotides(atom_array) & _filter_atom_type(atom_array,
["C1'", "C1*"])`).  The nucleotide classification predicate behind
`filter_nucleotides` reads the external PDB component dictionary
(`info.nucleotides`), so it is an oracle parameter. -/
def anchorAtoms (isNucleotide : String → Bool) (atoms : List PAtom) :
    List PAtom :=
  atoms.filter (fun a =>
    isNucleotide a.res_name &&
      (decide (a.atom_name ∈ ["C1'", "C1*"]) && decide (a.res_id ≠ -1)))

/-- `_get_proximate_basepair_candidates(atom_array, max_cutoff=15,
min_cutoff=9)`. -/
noncomputable def proximateCandidates (isNucleotide : String → Bool)
    (atoms : List PAtom) (maxCutoff minCutoff : ℝ) : List Cand :=
  let sugars := anchorAtoms isNucleotide atoms
  (ndindex sugars.length).foldl (candStep sugars maxCutoff minCutoff) []

/-- The candidate loop of `get_basepairs`; an exception raised while checking
one candidate aborts the whole call. -/
noncomputable def basepairLoop (so : SuperimposeOracle) (hb : HbondOracle)
    (atoms : List PAtom) (minAtomsPerBase : Nat) :
    List Cand → List Cand → Except Warn (List Cand)
  | [], acc => Except.ok acc
  | c :: rest, acc =>
    match checkDssrCriteria so hb
        (filterResidues atoms c.res_id1 c.chain_id1)
        (filterResidues atoms c.res_id2 c.chain_id2) minAtomsPerBase with
    | Except.error w => Except.error w
    | Except.ok true => basepairLoop so hb atoms minAtomsPerBase rest (acc ++ [c])
    | Except.ok false => basepairLoop so hb atoms minAtomsPerBase rest acc

/-- `get_basepairs(atom_array, min_atoms_per_base=3)`: the public entry
point, parameterized over the external collaborators (superposition oracle,
hydrogen-bond detector, nucleotide classification predicate). -/
noncomputable def getBasepairs (so : SuperimposeOracle) (hb : HbondOracle)
    (isNucleotide : String → Bool) (atoms : List PAtom)
    (minAtomsPerBase : Nat) : Except Warn (List Cand) :=
  basepairLoop so hb atoms minAtomsPerBase
    (proximateCandidates isNucleotide atoms 15 9) []

/-- Two coordinate vectors with equal components are equal. -/
theorem Vec3.ext_components {u v : Vec3} (hx : u.x = v.x) (hy : u.y = v.y)
    (hz : u.z = v.z) : u = v := by
  cases u; cases v; simp_all

/-- Evaluate a distance whose squared value is known. -/
theorem distance_eq_of_sq {u v : Vec3} {r : ℝ} (hr : 0 ≤ r)
    (h : (u.x - v.x) * (u.x - v.x) + (u.y - v.y) * (u.y - v.y)
        + (u.z - v.z) * (u.z - v.z) = r ^ 2) :
    distance u v = r := by
  unfold distance dot3 vsub
  simp only
  rw [h, Real.sqrt_sq hr]

/-- The distance from a point to itself is zero. -/
theorem distance_self (v : Vec3) : distance v v = 0 := by
  apply distance_eq_of_sq le_rfl
  ring

/-- Normalizing a vector of unit squared norm leaves it unchanged. -/
theorem normVector_of_unit {v : Vec3} (h : dot3 v v = 1) : normVector v = v := by
  unfold normVector
  rw [h, Real.sqrt_one]
  apply Vec3.ext_components <;> simp [vsmul]

/-- Reversing a candidate twice gives the candidate back. -/
theorem revCand_revCand (c : Cand) : revCand (revCand c) = c := rfl

/-- Unfolding equation for `maskFilter` on a kept atom. -/
theorem maskFilter_cons_true (a : PAtom) (as : List PAtom) (bs : List Bool) :
    maskFilter (a :: as) (true :: bs) = a :: maskFilter as bs := rfl

/-- Unfolding equation for `maskFilter` on a dropped atom. -/
theorem maskFilter_cons_false (a : PAtom) (as : List PAtom) (bs : List Bool) :
    maskFilter (a :: as) (false :: bs) = maskFilter as bs := rfl

/-- Membership in a boolean-mask selection, characterized by a common
index into the atom list and the mask. -/
theorem mem_maskFilter {atoms : List PAtom} {mask : List Bool} {a : PAtom} :
    a ∈ maskFilter atoms mask ↔
      ∃ i : Nat, atoms[i]? = some a ∧ mask[i]? = some true := by
  induction atoms generalizing mask with
  | nil => simp [maskFilter]
  | cons hd tl ih =>
    cases mask with
    | nil => simp [maskFilter]
    | cons b bs =>
      cases b with
      | false =>
        rw [maskFilter_cons_false]
        rw [@ih bs]
        constructor
        · rintro ⟨i, h1, h2⟩
          exact ⟨i + 1, by simpa using h1, by simpa using h2⟩
        · rintro ⟨i, h1, h2⟩
          cases i with
          | zero => simp at h2
          | succ i =>
            exact ⟨i, by simpa using h1, by simpa using h2⟩
      | true =>
        rw [maskFilter_cons_true]
        simp only [List.mem_cons]
        rw [@ih bs]
        constructor
        · rintro (rfl | ⟨i, h1, h2⟩)
          · exact ⟨0, by simp, by simp⟩
          · exact ⟨i + 1, by simpa using h1, by simpa using h2⟩
        · rintro ⟨i, h1, h2⟩
          cases i with
          | zero =>
            left
            simpa using h1.symm
          | succ i =>
            right
            exact ⟨i, by simpa using h1, by simpa using h2⟩

/-- C6: the donor/acceptor plausibility sub-check `_check_hbonds` returns
true if and only if, in at least one of the two ordered role assignments
(base 1 donating to base 2, or base 2 donating to base 1), some donor-masked
atom and some acceptor-masked atom lie at distance at most 4.0 Å. -/
theorem checkHbonds_iff_plausible_pair (m0 m1 : MatchedBase) :
    checkHbonds m0 m1 = true ↔
      ((∃ i : Nat, ∃ j : Nat, ∃ d a : PAtom,
          m0.base[i]? = some d ∧ m0.donorMask[i]? = some true ∧
          m1.base[j]? = some a ∧ m1.acceptorMask[j]? = some true ∧
          distance a.coord d.coord ≤ 4.0) ∨
       (∃ i : Nat, ∃ j : Nat, ∃ d a : PAtom,
          m1.base[i]? = some d ∧ m1.donorMask[i]? = some true ∧
          m0.base[j]? = some a ∧ m0.acceptorMask[j]? = some true ∧
          distance a.coord d.coord ≤ 4.0)) := by
  unfold checkHbonds
  simp only [List.any_cons, List.any_nil, Bool.or_false, Bool.or_eq_true,
    List.any_eq_true, decide_eq_true_eq, mem_maskFilter]
  constructor
  · rintro (⟨d, ⟨i, hd1, hd2⟩, a, ⟨j, ha1, ha2⟩, h⟩ |
            ⟨d, ⟨i, hd1, hd2⟩, a, ⟨j, ha1, ha2⟩, h⟩)
    · exact Or.inl ⟨i, j, d, a, hd1, hd2, ha1, ha2, h⟩
    · exact Or.inr ⟨i, j, d, a, hd1, hd2, ha1, ha2, h⟩
  · rintro (⟨i, j, d, a, hd1, hd2, ha1, ha2, h⟩ |
            ⟨i, j, d, a, hd1, hd2, ha1, ha2, h⟩)
    · exact Or.inl ⟨d, ⟨i, hd1, hd2⟩, a, ⟨j, ha1, ha2⟩, h⟩
    · exact Or.inr ⟨d, ⟨i, hd1, hd2⟩, a, ⟨j, ha1, ha2⟩, h⟩

/-- Membership in the list of collected normalized ring-center distance
vectors, characterized by a qualifying ring-center pair. -/
theorem mem_qualifyingNdvs {v0 v1 : BaseVectors} {x : Vec3} :
    x ∈ qualifyingNdvs v0 v1 ↔
      ∃ r1 ∈ v0.ringCenters, ∃ r2 ∈ v1.ringCenters,
        distance r1 r2 ≤ 4.5 ∧ normVector (vsub r2 r1) = x := by
  unfold qualifyingNdvs
  simp only [List.mem_flatMap, List.mem_filterMap,
    Option.ite_none_right_eq_some, Option.some.injEq]

/-- C5: the stacking sub-check `_check_base_stacking` reports stacking
present if and only if some pair of ring centers (one from each base) lies at
distance at most 4.5 Å, the angle between the two z-axes is at most 23°, and
some normalized center-to-center vector of a qualifying ring-center pair
forms an angle of at most 40° with one of the two z-axes. -/
theorem checkBaseStacking_iff_gabb (v0 v1 : BaseVectors) :
    checkBaseStacking v0 v1 = true ↔
      ((∃ r1 ∈ v0.ringCenters, ∃ r2 ∈ v1.ringCenters, distance r1 r2 ≤ 4.5) ∧
        Real.arccos (dot3 v0.zv v1.zv) ≤ 23 * Real.pi / 180 ∧
        (∃ r1 ∈ v0.ringCenters, ∃ r2 ∈ v1.ringCenters,
          distance r1 r2 ≤ 4.5 ∧
            (Real.arccos (dot3 v0.zv (normVector (vsub r2 r1))) ≤
                40 * Real.pi / 180 ∨
             Real.arccos (dot3 v1.zv (normVector (vsub r2 r1))) ≤
                40 * Real.pi / 180))) := by
  unfold checkBaseStacking
  by_cases hempty : (qualifyingNdvs v0 v1).isEmpty
  · rw [if_pos hempty]
    rw [List.isEmpty_iff] at hempty
    constructor
    · intro h; exact absurd h (by simp)
    · rintro ⟨⟨r1, h1, r2, h2, h3⟩, -, -⟩
      have : normVector (vsub r2 r1) ∈ qualifyingNdvs v0 v1 :=
        mem_qualifyingNdvs.2 ⟨r1, h1, r2, h2, h3, rfl⟩
      rw [hempty] at this
      simp at this
  · rw [if_neg hempty]
    by_cases hang : Real.arccos (dot3 v0.zv v1.zv) ≤ 23 * Real.pi / 180
    · rw [if_neg (not_not_intro hang)]
      simp only [List.any_cons, List.any_nil, Bool.or_false, Bool.or_eq_true,
        List.any_eq_true, decide_eq_true_eq]
      constructor
      · rintro (⟨ndv, hmem, hle⟩ | ⟨ndv, hmem, hle⟩) <;>
          obtain ⟨r1, h1, r2, h2, h3, h4⟩ := mem_qualifyingNdvs.1 hmem
        · exact ⟨⟨r1, h1, r2, h2, h3⟩, hang,
            r1, h1, r2, h2, h3, Or.inl (by rw [h4]; exact hle)⟩
        · exact ⟨⟨r1, h1, r2, h2, h3⟩, hang,
            r1, h1, r2, h2, h3, Or.inr (by rw [h4]; exact hle)⟩
      · rintro ⟨-, -, r1, h1, r2, h2, h3, hle | hle⟩
        · exact Or.inl ⟨normVector (vsub r2 r1),
            mem_qualifyingNdvs.2 ⟨r1, h1, r2, h2, h3, rfl⟩, hle⟩
        · exact Or.inr ⟨normVector (vsub r2 r1),
            mem_qualifyingNdvs.2 ⟨r1, h1, r2, h2, h3, rfl⟩, hle⟩
    · rw [if_pos hang]
      constructor
      · intro h; exact absurd h (by simp)
      · rintro ⟨-, h, -⟩
        exact absurd h hang

/-- C4: a candidate pair whose two bases were both matched is accepted if
and only if all five DSSR criteria hold — origin distance at most 15 Å, the
criterion-2 separation at most 2.5 Å, z-axis angle at least 115°, no
stacking reported, and a hydrogen bond present (both bases carry hydrogens
and the detector finds one) or plausible (otherwise, via the
donor/acceptor sub-check). -/
theorem dssrAccept_iff_criteria (hb : HbondOracle) (m0 m1 : MatchedBase) :
    dssrAccept hb m0 m1 = true ↔
      (distance m0.vectors.origin m1.vectors.origin ≤ 15 ∧
       distance m1.vectors.origin
         (vadd m1.vectors.origin
           (vsmul (solveFirst m0.vectors.xv m0.vectors.yv
               (vsmul (-1) m0.vectors.zv)
               (vsub m1.vectors.origin m0.vectors.origin)) m0.vectors.zv)) ≤ 2.5 ∧
       Real.arccos (dot3 m0.vectors.zv m1.vectors.zv) ≥ 115 * Real.pi / 180 ∧
       checkBaseStacking m0.vectors m1.vectors = false ∧
       ((m0.containsHydrogens = true ∧ m1.containsHydrogens = true ∧
          hb.count (m0.base ++ m1.base)
            (List.replicate (m0.base ++ m1.base).length true)
            (List.replicate (m0.base ++ m1.base).length true) ≠ 0) ∨
        (¬(m0.containsHydrogens = true ∧ m1.containsHydrogens = true) ∧
          checkHbonds m0 m1 = true))) := by
  unfold dssrAccept
  simp only []
  split_ifs with h1 h2 h3 h4 h5 h6 h7 <;>
    simp_all [Bool.and_eq_true, Bool.not_eq_true]

/-- The five standard bases constructed at module load. -/
noncomputable def stdBases : List StdBase :=
  [stdAdenine, stdCytosine, stdGuanine, stdThymine, stdUracil]

/-- C10: for every standard base of the module and every residue atom-name
list, the modern (PDBv3) variant is selected exactly when strictly more of
its atom names occur in the residue than the legacy (PDBv2) variant's atom
names, and on ties (including zero overlap) the legacy variant is used. -/
theorem selectVariant_strict_overlap (std : StdBase) (hstd : std ∈ stdBases)
    (names : List String) :
    (selectVariant std names = std.pdbv3 ↔
      countIn (atomNames std.pdbv3) names >
        countIn (atomNames std.pdbv2) names) ∧
    (¬ countIn (atomNames std.pdbv3) names >
        countIn (atomNames std.pdbv2) names →
      selectVariant std names = std.pdbv2) := by
  have hne : std.pdbv2 ≠ std.pdbv3 := by
    intro h
    have h2 : atomNames std.pdbv2 = atomNames std.pdbv3 := by rw [h]
    fin_cases hstd <;> exact absurd h2 (by decide)
  unfold selectVariant
  by_cases hgt : countIn (atomNames std.pdbv3) names >
      countIn (atomNames std.pdbv2) names
  · rw [if_pos hgt]
    exact ⟨⟨fun _ => hgt, fun _ => rfl⟩, fun h => absurd hgt h⟩
  · rw [if_neg hgt]
    exact ⟨⟨fun h => absurd h hne, fun h => absurd h hgt⟩, fun _ => rfl⟩

/-- Witness for C10 at the standard adenine and a single-atom residue. -/
theorem selectVariant_strict_overlap_witness :
    stdAdenine ∈ stdBases ∧
    ((selectVariant stdAdenine ["N9"] = stdAdenine.pdbv3 ↔
       countIn (atomNames stdAdenine.pdbv3) ["N9"] >
         countIn (atomNames stdAdenine.pdbv2) ["N9"]) ∧
     (¬ countIn (atomNames stdAdenine.pdbv3) ["N9"] >
         countIn (atomNames stdAdenine.pdbv2) ["N9"] →
       selectVariant stdAdenine ["N9"] = stdAdenine.pdbv2)) :=
  ⟨by simp [stdBases],
   selectVariant_strict_overlap stdAdenine (by simp [stdBases]) ["N9"]⟩

/-- A `candStep` iteration that records the pair. -/
theorem candStep_eq_keep {s : List PAtom} {mx mn : ℝ} {acc : List Cand}
    {i j : Nat} (hadj : adjacent mx (s.getD i default) (s.getD j default))
    (hcond : distance (s.getD i default).coord (s.getD j default).coord > mn ∧
      candOf (s.getD j default) (s.getD i default) ∉ acc) :
    candStep s mx mn acc (i, j) =
      acc ++ [candOf (s.getD i default) (s.getD j default)] := by
  unfold candStep
  simp only []
  rw [if_pos hadj, if_pos hcond]

/-- A `candStep` iteration skipped because the pair is not adjacent. -/
theorem candStep_eq_skip_far {s : List PAtom} {mx mn : ℝ} {acc : List Cand}
    {i j : Nat} (hadj : ¬ adjacent mx (s.getD i default) (s.getD j default)) :
    candStep s mx mn acc (i, j) = acc := by
  unfold candStep
  simp only []
  rw [if_neg hadj]

/-- A `candStep` iteration skipped by the minimum-distance/duplication
guard. -/
theorem candStep_eq_skip {s : List PAtom} {mx mn : ℝ} {acc : List Cand}
    {i j : Nat} (hadj : adjacent mx (s.getD i default) (s.getD j default))
    (hcond : ¬ (distance (s.getD i default).coord (s.getD j default).coord > mn ∧
      candOf (s.getD j default) (s.getD i default) ∉ acc)) :
    candStep s mx mn acc (i, j) = acc := by
  unfold candStep
  simp only []
  rw [if_pos hadj, if_neg hcond]

/-- `candStep_eq_keep` with the indexed atoms resolved. -/
theorem candStep_eq_keep2 {s : List PAtom} {mx mn : ℝ} {acc : List Cand}
    {i j : Nat} {ai aj : PAtom}
    (hi : s.getD i default = ai) (hj : s.getD j default = aj)
    (hadj : adjacent mx ai aj)
    (hcond : distance ai.coord aj.coord > mn ∧ candOf aj ai ∉ acc) :
    candStep s mx mn acc (i, j) = acc ++ [candOf ai aj] := by
  subst hi; subst hj
  exact candStep_eq_keep hadj hcond

/-- `candStep_eq_skip_far` with the indexed atoms resolved. -/
theorem candStep_eq_skip_far2 {s : List PAtom} {mx mn : ℝ} {acc : List Cand}
    {i j : Nat} {ai aj : PAtom}
    (hi : s.getD i default = ai) (hj : s.getD j default = aj)
    (hadj : ¬ adjacent mx ai aj) :
    candStep s mx mn acc (i, j) = acc := by
  subst hi; subst hj
  exact candStep_eq_skip_far hadj

/-- `candStep_eq_skip` with the indexed atoms resolved. -/
theorem candStep_eq_skip2 {s : List PAtom} {mx mn : ℝ} {acc : List Cand}
    {i j : Nat} {ai aj : PAtom}
    (hi : s.getD i default = ai) (hj : s.getD j default = aj)
    (hadj : adjacent mx ai aj)
    (hcond : ¬ (distance ai.coord aj.coord > mn ∧ candOf aj ai ∉ acc)) :
    candStep s mx mn acc (i, j) = acc := by
  subst hi; subst hj
  exact candStep_eq_skip hadj hcond

/-- Every `candStep` iteration either leaves the accumulator unchanged or
appends one pair that is adjacent, farther apart than `min_cutoff`, and not
yet recorded in reverse order. -/
theorem candStep_result (s : List PAtom) (mx mn : ℝ) (acc : List Cand)
    (p : Nat × Nat) :
    candStep s mx mn acc p = acc ∨
      (distance (s.getD p.1 default).coord (s.getD p.2 default).coord ≤ mx ∧
       distance (s.getD p.1 default).coord (s.getD p.2 default).coord > mn ∧
       candOf (s.getD p.2 default) (s.getD p.1 default) ∉ acc ∧
       candStep s mx mn acc p =
         acc ++ [candOf (s.getD p.1 default) (s.getD p.2 default)]) := by
  unfold candStep
  simp only []
  split_ifs with h1 h2
  · exact Or.inr ⟨h1, h2.1, h2.2, rfl⟩
  · exact Or.inl rfl
  · exact Or.inl rfl

/-- Index pairs enumerated by `np.ndindex` are exactly the in-range ones. -/
theorem mem_ndindex {n : Nat} {p : Nat × Nat} :
    p ∈ ndindex n ↔ p.1 < n ∧ p.2 < n := by
  cases p with
  | mk i j =>
    unfold ndindex
    simp [List.mem_flatMap, List.mem_map, List.mem_range, eq_comm]

/-- Every candidate recorded by the `candStep` fold that is not in the
initial accumulator comes from two selected anchor atoms that are adjacent
and farther apart than `min_cutoff`. -/
theorem mem_foldl_candStep {s : List PAtom} {mx mn : ℝ} :
    ∀ (pairs : List (Nat × Nat)) (acc : List Cand) (c : Cand),
      (∀ p ∈ pairs, p.1 < s.length ∧ p.2 < s.length) →
      c ∈ pairs.foldl (candStep s mx mn) acc →
      c ∈ acc ∨ ∃ ai ∈ s, ∃ aj ∈ s,
        distance ai.coord aj.coord ≤ mx ∧
        distance ai.coord aj.coord > mn ∧ c = candOf ai aj := by
  intro pairs
  induction pairs with
  | nil =>
    intro acc c _ h
    exact Or.inl (by simpa using h)
  | cons p ps ih =>
    intro acc c hrange h
    rw [List.foldl_cons] at h
    have hmain := ih (candStep s mx mn acc p) c
      (fun q hq => hrange q (List.mem_cons_of_mem _ hq)) h
    rcases hmain with hc | hex
    · rcases candStep_result s mx mn acc p with he | ⟨h1, h2, _, he⟩
      · rw [he] at hc; exact Or.inl hc
      · rw [he] at hc
        rcases List.mem_append.1 hc with hc | hc
        · exact Or.inl hc
        · have hp := hrange p (List.mem_cons_self _ _)
          refine Or.inr ⟨s.getD p.1 default, ?_, s.getD p.2 default, ?_,
            h1, h2, by simpa using hc⟩
          · rw [List.getD_eq_getElem _ _ hp.1]
            exact List.getElem_mem hp.1
          · rw [List.getD_eq_getElem _ _ hp.2]
            exact List.getElem_mem hp.2
    · exact Or.inr hex

/-- Appending a candidate whose reverse is not yet recorded preserves the
no-reversed-duplicates invariant. -/
theorem noRevDup_append {acc : List Cand} {c0 : Cand}
    (h : ∀ c ∈ acc, revCand c ∈ acc → revCand c = c)
    (hnin : revCand c0 ∉ acc) :
    ∀ c ∈ acc ++ [c0], revCand c ∈ acc ++ [c0] → revCand c = c := by
  intro c hc hrc
  rcases List.mem_append.1 hc with hc | hc
  · rcases List.mem_append.1 hrc with hrc | hrc
    · exact h c hc hrc
    · simp only [List.mem_singleton] at hrc
      exfalso
      apply hnin
      rw [← hrc, revCand_revCand]
      exact hc
  · simp only [List.mem_singleton] at hc
    subst hc
    rcases List.mem_append.1 hrc with hrc | hrc
    · exact absurd hrc hnin
    · simpa using hrc

/-- The `candStep` fold preserves the no-reversed-duplicates invariant. -/
theorem noRevDup_foldl_candStep {s : List PAtom} {mx mn : ℝ} :
    ∀ (pairs : List (Nat × Nat)) (acc : List Cand),
      (∀ c ∈ acc, revCand c ∈ acc → revCand c = c) →
      ∀ c ∈ pairs.foldl (candStep s mx mn) acc,
        revCand c ∈ pairs.foldl (candStep s mx mn) acc → revCand c = c := by
  intro pairs
  induction pairs with
  | nil =>
    intro acc h
    simpa using h
  | cons p ps ih =>
    intro acc h
    rw [List.foldl_cons]
    apply ih
    rcases candStep_result s mx mn acc p with he | ⟨_, _, h3, he⟩
    · rw [he]; exact h
    · rw [he]; exact noRevDup_append h h3

/-- The no-reversed-duplicates invariant of the candidate list. -/
theorem noRevDup_proximateCandidates (isNucleotide : String → Bool)
    (atoms : List PAtom) (mx mn : ℝ) :
    ∀ c ∈ proximateCandidates isNucleotide atoms mx mn,
      revCand c ∈ proximateCandidates isNucleotide atoms mx mn →
        revCand c = c := by
  unfold proximateCandidates
  exact noRevDup_foldl_candStep _ _ (by simp)

/-- Accepted pairs reported by the `get_basepairs` loop all come from the
candidate list (or the initial accumulator). -/
theorem mem_basepairLoop {so : SuperimposeOracle} {hb : HbondOracle}
    {atoms : List PAtom} {n : Nat} :
    ∀ (cands acc res : List Cand),
      basepairLoop so hb atoms n cands acc = Except.ok res →
      ∀ c ∈ res, c ∈ acc ∨ c ∈ cands := by
  intro cands
  induction cands with
  | nil =>
    intro acc res h c hc
    unfold basepairLoop at h
    cases h
    exact Or.inl hc
  | cons c0 cs ih =>
    intro acc res h c hc
    unfold basepairLoop at h
    rcases hd : checkDssrCriteria so hb (filterResidues atoms c0.res_id1 c0.chain_id1)
        (filterResidues atoms c0.res_id2 c0.chain_id2) n with w | b
    · rw [hd] at h; cases h
    · rw [hd] at h
      cases b with
      | true =>
        rcases ih _ _ h c hc with hm | hm
        · rcases List.mem_append.1 hm with hm | hm
          · exact Or.inl hm
          · exact Or.inr (List.mem_cons.2 (Or.inl (List.mem_singleton.1 hm)))
        · exact Or.inr (List.mem_cons_of_mem _ hm)
      | false =>
        rcases ih _ _ h c hc with hm | hm
        · exact Or.inl hm
        · exact Or.inr (List.mem_cons_of_mem _ hm)

/-- The distance between two points is nonnegative. -/
theorem distance_nonneg (u v : Vec3) : 0 ≤ distance u v := Real.sqrt_nonneg _

/-- The identity transformation. -/
noncomputable def idTransformation : Transformation :=
  ⟨⟨0, 0, 0⟩, fun v => v, ⟨0, 0, 0⟩⟩

/-- Modelled from the spec (§6): a superposition environment whose fitted
set is the fixed argument — at the `_match_base` call site the fixed argument
is already restricted to the name-matched atoms, i.e. "the subset of the
first set actually used after name-matching" — with the identity
transformation. -/
noncomputable def soTriv : SuperimposeOracle :=
  ⟨fun fixed _ => (fixed, idTransformation)⟩

/-- A hydrogen-bond detector environment reporting no bonds (never consulted
in the concrete runs below, whose bases carry no explicit hydrogens). -/
def hbZero : HbondOracle := ⟨fun _ _ _ => 0⟩

/-- A nucleotide classification environment accepting every residue name:
the PDB component dictionary behind `filter_nucleotides` contains many
modified nucleotides (e.g. pseudouridine `PSU`) that are not among the ten
residue names `_match_base` recognizes. -/
def nucAll : String → Bool := fun _ => true

/-- Candidate enumeration over exactly two anchor atoms whose separation
lies inside the distance band: the single candidate `(a, b)` is recorded,
and the reversed iteration `(b, a)` is suppressed by the duplicate check. -/
theorem proximateCandidates_pair {isNuc : String → Bool} {atoms : List PAtom}
    {a b : PAtom} {mx mn dab : ℝ}
    (hs : anchorAtoms isNuc atoms = [a, b])
    (hd : distance a.coord b.coord = dab)
    (hd' : distance b.coord a.coord = dab)
    (h1 : dab ≤ mx) (h2 : dab > mn) (hmn : 0 ≤ mn) :
    proximateCandidates isNuc atoms mx mn = [candOf a b] := by
  have hmx : (0 : ℝ) ≤ mx := le_trans (le_trans hmn (le_of_lt h2)) h1
  unfold proximateCandidates
  simp only [hs]
  show ([(0, 0), (0, 1), (1, 0), (1, 1)] : List (Nat × Nat)).foldl
      (candStep [a, b] mx mn) [] = [candOf a b]
  rw [List.foldl_cons,
    @candStep_eq_skip2 [a, b] mx mn [] 0 0 a a rfl rfl
      (by unfold adjacent; rw [distance_self]; exact hmx)
      (by rw [distance_self]; intro h; exact absurd h.1 (not_lt.2 hmn)),
    List.foldl_cons,
    @candStep_eq_keep2 [a, b] mx mn [] 0 1 a b rfl rfl
      (by unfold adjacent; rw [hd]; exact h1)
      ⟨by rw [hd]; exact h2, by simp⟩,
    List.nil_append,
    List.foldl_cons,
    @candStep_eq_skip2 [a, b] mx mn [candOf a b] 1 0 b a rfl rfl
      (by unfold adjacent; rw [hd']; exact h1)
      (by intro h; exact h.2 (by simp)),
    List.foldl_cons,
    @candStep_eq_skip2 [a, b] mx mn [candOf a b] 1 1 b b rfl rfl
      (by unfold adjacent; rw [distance_self]; exact hmx)
      (by rw [distance_self]; intro h; exact absurd h.1 (not_lt.2 hmn)),
    List.foldl_nil]

/-- Candidate enumeration over exactly two anchor atoms that are adjacent
but not farther apart than `min_cutoff`: nothing is recorded. -/
theorem proximateCandidates_pair_far {isNuc : String → Bool}
    {atoms : List PAtom} {a b : PAtom} {mx mn dab : ℝ}
    (hs : anchorAtoms isNuc atoms = [a, b])
    (hd : distance a.coord b.coord = dab)
    (hd' : distance b.coord a.coord = dab)
    (h1 : dab ≤ mx) (h2 : ¬ dab > mn) (hmn : 0 ≤ mn) :
    proximateCandidates isNuc atoms mx mn = [] := by
  have hd0 : (0 : ℝ) ≤ dab := hd ▸ distance_nonneg _ _
  have hmx : (0 : ℝ) ≤ mx := le_trans hd0 h1
  unfold proximateCandidates
  simp only [hs]
  show ([(0, 0), (0, 1), (1, 0), (1, 1)] : List (Nat × Nat)).foldl
      (candStep [a, b] mx mn) [] = []
  rw [List.foldl_cons,
    @candStep_eq_skip2 [a, b] mx mn [] 0 0 a a rfl rfl
      (by unfold adjacent; rw [distance_self]; exact hmx)
      (by rw [distance_self]; intro h; exact absurd h.1 (not_lt.2 hmn)),
    List.foldl_cons,
    @candStep_eq_skip2 [a, b] mx mn [] 0 1 a b rfl rfl
      (by unfold adjacent; rw [hd]; exact h1)
      (by rw [hd]; intro h; exact h2 h.1),
    List.foldl_cons,
    @candStep_eq_skip2 [a, b] mx mn [] 1 0 b a rfl rfl
      (by unfold adjacent; rw [hd']; exact h1)
      (by rw [hd']; intro h; exact h2 h.1),
    List.foldl_cons,
    @candStep_eq_skip2 [a, b] mx mn [] 1 1 b b rfl rfl
      (by unfold adjacent; rw [distance_self]; exact hmx)
      (by rw [distance_self]; intro h; exact absurd h.1 (not_lt.2 hmn)),
    List.foldl_nil]

/-- Two nucleotide anchor atoms exactly at `min_cutoff = 9` Å. -/
def anchorNearA : PAtom := ⟨⟨0, 0, 0⟩, "C1'", "A", 1, "A", "C"⟩
/-- The partner anchor atom at 9 Å. -/
def anchorNearB : PAtom := ⟨⟨0, 0, 9⟩, "C1'", "A", 2, "A", "C"⟩
/-- A structure whose two anchors are exactly at `min_cutoff`. -/
def boundaryMinStructure : List PAtom := [anchorNearA, anchorNearB]
/-- A partner anchor atom at exactly `max_cutoff = 15` Å. -/
def anchorFarB : PAtom := ⟨⟨0, 0, 15⟩, "C1'", "A", 2, "A", "C"⟩
/-- A structure whose two anchors are exactly at `max_cutoff`. -/
def boundaryMaxStructure : List PAtom := [anchorNearA, anchorFarB]

/-- C7: every recorded candidate stems from two selected anchor atoms that
are adjacent (within `max_cutoff`) and strictly farther apart than
`min_cutoff`; in particular, with the default cutoffs, two anchors exactly
at 9 Å produce no candidate while two anchors at 15 Å produce one. -/
theorem candidates_respect_distance_band :
    (∀ (isNuc : String → Bool) (atoms : List PAtom) (mx mn : ℝ) (c : Cand),
        c ∈ proximateCandidates isNuc atoms mx mn →
        ∃ ai ∈ anchorAtoms isNuc atoms, ∃ aj ∈ anchorAtoms isNuc atoms,
          distance ai.coord aj.coord ≤ mx ∧
          distance ai.coord aj.coord > mn ∧ c = candOf ai aj) ∧
    proximateCandidates nucAll boundaryMinStructure 15 9 = [] ∧
    proximateCandidates nucAll boundaryMaxStructure 15 9 =
      [candOf anchorNearA anchorFarB] := by
  refine ⟨?_, ?_, ?_⟩
  · intro isNuc atoms mx mn c hc
    unfold proximateCandidates at hc
    have hres := mem_foldl_candStep _ _ c
      (fun p hp => mem_ndindex.1 hp) hc
    rcases hres with h | h
    · simp at h
    · exact h
  · have hd : distance anchorNearA.coord anchorNearB.coord = 9 := by
      apply distance_eq_of_sq (by norm_num)
      norm_num [anchorNearA, anchorNearB]
    have hd2 : distance anchorNearB.coord anchorNearA.coord = 9 := by
      apply distance_eq_of_sq (by norm_num)
      norm_num [anchorNearA, anchorNearB]
    exact proximateCandidates_pair_far rfl hd hd2 (by norm_num) (by norm_num)
      (by norm_num)
  · have hd : distance anchorNearA.coord anchorFarB.coord = 15 := by
      apply distance_eq_of_sq (by norm_num)
      norm_num [anchorNearA, anchorFarB]
    have hd2 : distance anchorFarB.coord anchorNearA.coord = 15 := by
      apply distance_eq_of_sq (by norm_num)
      norm_num [anchorNearA, anchorFarB]
    exact proximateCandidates_pair rfl hd hd2 (by norm_num) (by norm_num)
      (by norm_num)

/-- Witness for C7: the 15 Å candidate is recorded, and applying the
distance-band property to it yields the adjacent anchor pair. -/
theorem candidates_respect_distance_band_witness :
    candOf anchorNearA anchorFarB ∈
      proximateCandidates nucAll boundaryMaxStructure 15 9 ∧
    (∃ ai ∈ anchorAtoms nucAll boundaryMaxStructure,
      ∃ aj ∈ anchorAtoms nucAll boundaryMaxStructure,
        distance ai.coord aj.coord ≤ 15 ∧ distance ai.coord aj.coord > 9 ∧
        candOf anchorNearA anchorFarB = candOf ai aj) := by
  have hmem : candOf anchorNearA anchorFarB ∈
      proximateCandidates nucAll boundaryMaxStructure 15 9 := by
    rw [candidates_respect_distance_band.2.2]
    exact List.mem_singleton.2 rfl
  exact ⟨hmem, candidates_respect_distance_band.1 nucAll boundaryMaxStructure
    15 9 _ hmem⟩

/-- C8 (amended): the output of `get_basepairs` never contains both orders
of a pair of two distinct (residue id, chain id) tuples; only a degenerate
candidate pairing a (residue id, chain id) tuple with itself coincides with
its own reversal. -/
theorem getBasepairs_no_reversed_pair (so : SuperimposeOracle)
    (hb : HbondOracle) (isNucleotide : String → Bool) (atoms : List PAtom)
    (n : Nat) (res : List Cand) (c : Cand)
    (hrun : getBasepairs so hb isNucleotide atoms n = Except.ok res)
    (hc : c ∈ res)
    (hdist : ¬ (c.res_id1 = c.res_id2 ∧ c.chain_id1 = c.chain_id2)) :
    revCand c ∉ res := by
  intro hrc
  unfold getBasepairs at hrun
  have h1 := mem_basepairLoop _ _ _ hrun c hc
  have h2 := mem_basepairLoop _ _ _ hrun (revCand c) hrc
  rcases h1 with h1 | h1
  · simp at h1
  rcases h2 with h2 | h2
  · simp at h2
  have heq := noRevDup_proximateCandidates isNucleotide atoms 15 9 c h1 h2
  apply hdist
  have h3 := congrArg Cand.res_id1 heq
  have h4 := congrArg Cand.chain_id1 heq
  exact ⟨h3.symm, h4.symm⟩

/-- One anchor atom of a degenerate residue (two C1' atoms sharing residue
id 1 and chain "A", more than `min_cutoff` apart). -/
def selfPairA : PAtom := ⟨⟨0, 0, 0⟩, "C1'", "A", 1, "A", "C"⟩
/-- The second anchor atom of the degenerate residue. -/
def selfPairB : PAtom := ⟨⟨0, 0, 10⟩, "C1'", "A", 1, "A", "C"⟩
/-- The degenerate two-anchor structure. -/
def selfPairStructure : List PAtom := [selfPairA, selfPairB]

/-- Counterexample to C8 as stated: for the degenerate structure, the
candidate list records `(1, "A", 1, "A")`, whose reversed reading
`(1, "A", 1, "A")` is therefore also recorded — the claim asserts the
reversal is never present once the pair is recorded. -/
theorem candidates_self_pair_both_orders :
    Cand.mk 1 "A" 1 "A" ∈ proximateCandidates nucAll selfPairStructure 15 9 ∧
    revCand (Cand.mk 1 "A" 1 "A") ∈
      proximateCandidates nucAll selfPairStructure 15 9 := by
  have hd : distance selfPairA.coord selfPairB.coord = 10 := by
    apply distance_eq_of_sq (by norm_num)
    norm_num [selfPairA, selfPairB]
  have hd2 : distance selfPairB.coord selfPairA.coord = 10 := by
    apply distance_eq_of_sq (by norm_num)
    norm_num [selfPairA, selfPairB]
  have hrun : proximateCandidates nucAll selfPairStructure 15 9 =
      [candOf selfPairA selfPairB] :=
    proximateCandidates_pair rfl hd hd2 (by norm_num) (by norm_num)
      (by norm_num)
  constructor <;> rw [hrun] <;> exact List.mem_singleton.2 rfl

/-- C9: two runs of the full pipeline on the same structure, the same
`min_atoms_per_base` and the same external collaborators accept the same
set of pairs. -/
theorem getBasepairs_deterministic (so : SuperimposeOracle) (hb : HbondOracle)
    (isNucleotide : String → Bool) (atoms : List PAtom) (n : Nat)
    (res1 res2 : List Cand)
    (h1 : getBasepairs so hb isNucleotide atoms n = Except.ok res1)
    (h2 : getBasepairs so hb isNucleotide atoms n = Except.ok res2) :
    ∀ c : Cand, c ∈ res1 ↔ c ∈ res2 := by
  rw [h1] at h2
  injection h2 with h
  subst h
  exact fun c => Iff.rfl

/-- Witness for C9 on the empty structure. -/
theorem getBasepairs_deterministic_witness :
    getBasepairs soTriv hbZero nucAll [] 3 = Except.ok [] ∧
    (Cand.mk 1 "A" 2 "A" ∈ ([] : List Cand) ↔
      Cand.mk 1 "A" 2 "A" ∈ ([] : List Cand)) :=
  ⟨rfl, getBasepairs_deterministic soTriv hbZero nucAll [] 3 [] [] rfl rfl
    (Cand.mk 1 "A" 2 "A")⟩

/-- The anchor atom of a pseudouridine residue: `PSU` is a nucleotide per
the PDB component dictionary, but not among the five recognized base
identity sets of `_match_base`. -/
def psuAtom : PAtom := ⟨⟨0, 0, 0⟩, "C1'", "PSU", 1, "A", "C"⟩
/-- A canonical adenosine anchor 10 Å away from the pseudouridine. -/
def adeAnchor : PAtom := ⟨⟨0, 0, 10⟩, "C1'", "A", 2, "A", "C"⟩
/-- A structure pairing an unsupported nucleotide with a canonical one. -/
def unsupportedStructure : List PAtom := [psuAtom, adeAnchor]

/-- C1 (code evaluated at the failing input): on a structure containing a
candidate pair whose first residue has an unsupported name, `get_basepairs`
raises `UnexpectedStructureWarning` — a Python `raise` of a `Warning`
instance is an exception — so the whole call aborts instead of excluding the
candidate and returning normally; the `return None` after the `raise` is
unreachable. -/
theorem getBasepairs_aborts_on_unsupported_base :
    getBasepairs soTriv hbZero nucAll unsupportedStructure 3 =
      Except.error (Warn.unexpectedStructure
        "Base Type not supported. Unable to check for basepair") := by
  have hd : distance psuAtom.coord adeAnchor.coord = 10 := by
    apply distance_eq_of_sq (by norm_num)
    norm_num [psuAtom, adeAnchor]
  have hd2 : distance adeAnchor.coord psuAtom.coord = 10 := by
    apply distance_eq_of_sq (by norm_num)
    norm_num [psuAtom, adeAnchor]
  have hcands : proximateCandidates nucAll unsupportedStructure 15 9 =
      [candOf psuAtom adeAnchor] :=
    proximateCandidates_pair rfl hd hd2 (by norm_num) (by norm_num)
      (by norm_num)
  unfold getBasepairs
  rw [hcands]
  rfl

/-- An adenine residue with exactly three of the eleven standard template
atoms (N9, C8, N7). -/
def incompleteAdenine : List PAtom :=
  [⟨⟨0, 0, 0⟩, "N9", "A", 1, "A", "N"⟩,
   ⟨⟨1, 0, 0⟩, "C8", "A", 1, "A", "C"⟩,
   ⟨⟨2, 0, 0⟩, "N7", "A", 1, "A", "N"⟩]

/-- C2 (code evaluated at the failing input): on a residue with at least
`min_atoms_per_base` matched atoms but fewer than the full template,
`_match_base` raises `IncompleteStructureWarning` — an exception aborting
the call — instead of returning the transformed standard template with the
template masks and a false has-hydrogens flag; that substitution code is
written after the `raise` and is unreachable. -/
theorem matchBase_incomplete_raises :
    matchBase soTriv incompleteAdenine 3 =
      Except.error (Warn.incompleteStructure
        "Base is not complete. Attempting to emulate with std_base.") := rfl

/-- The first base frame of the criterion-2 example: the standard basis
frame at the origin. -/
noncomputable def crit2Frame0 : BaseVectors :=
  ⟨⟨0, 0, 0⟩, ⟨1, 0, 0⟩, ⟨0, 1, 0⟩, ⟨0, 0, 1⟩, []⟩
/-- The second base frame of the criterion-2 example: the same orientation
with origin (3, 0, 1). -/
noncomputable def crit2Frame1 : BaseVectors :=
  ⟨⟨3, 0, 1⟩, ⟨1, 0, 0⟩, ⟨0, 1, 0⟩, ⟨0, 0, 1⟩, []⟩

/-- C3 (code evaluated at the failing input): the criterion-2 quantity of
`_check_dssr_criteria` — built from component 0 of the solved linear system
(`np.linalg.solve(...)[0]`) — equals 3 on these frames, while the point
(3, 0, 0), which lies on base 1's x/y plane and on the line through base 2's
origin directed along base 1's z-axis, is at distance 1 from base 2's
origin; the value tested against 2.5 Å is therefore not the distance to the
plane intersection (that would be the third solution component). -/
theorem crit2_value_not_plane_intersection_distance :
    distance crit2Frame1.origin
      (vadd crit2Frame1.origin
        (vsmul (solveFirst crit2Frame0.xv crit2Frame0.yv
            (vsmul (-1) crit2Frame0.zv)
            (vsub crit2Frame1.origin crit2Frame0.origin)) crit2Frame0.zv)) = 3 ∧
    (⟨3, 0, 0⟩ : Vec3) =
      vadd crit2Frame1.origin (vsmul (-1) crit2Frame0.zv) ∧
    (⟨3, 0, 0⟩ : Vec3) =
      vadd crit2Frame0.origin
        (vadd (vsmul 3 crit2Frame0.xv) (vsmul 0 crit2Frame0.yv)) ∧
    distance crit2Frame1.origin ⟨3, 0, 0⟩ = 1 ∧
    (3 : ℝ) ≠ 1 := by
  have ht : solveFirst crit2Frame0.xv crit2Frame0.yv
      (vsmul (-1) crit2Frame0.zv)
      (vsub crit2Frame1.origin crit2Frame0.origin) = 3 := by
    unfold solveFirst det3 crit2Frame0 crit2Frame1 vsmul vsub
    norm_num
  refine ⟨?_, ?_, ?_, ?_, by norm_num⟩
  · rw [ht]
    apply distance_eq_of_sq (by norm_num)
    norm_num [crit2Frame0, crit2Frame1, vadd, vsmul]
  · apply Vec3.ext_components <;>
      norm_num [crit2Frame0, crit2Frame1, vadd, vsmul]
  · apply Vec3.ext_components <;>
      norm_num [crit2Frame0, crit2Frame1, vadd, vsmul]
  · apply distance_eq_of_sq (by norm_num)
    norm_num [crit2Frame1]

/-- The C1* anchor of the first witness residue. -/
def wAnchor1 : PAtom := ⟨⟨0, 0, 0⟩, "C1*", "A", 1, "A", "C"⟩
/-- The N6 atom of the first witness residue. -/
def wN6A : PAtom := ⟨⟨6, 0, 0⟩, "N6", "A", 1, "A", "N"⟩
/-- The first witness residue: a complete PDBv2 adenine (all eleven
template atom names present; atom k of the template order sits at
(k, 0, 0)). -/
def wResidue1 : List PAtom :=
  [wAnchor1,
   ⟨⟨1, 0, 0⟩, "N9", "A", 1, "A", "N"⟩,
   ⟨⟨2, 0, 0⟩, "C8", "A", 1, "A", "C"⟩,
   ⟨⟨3, 0, 0⟩, "N7", "A", 1, "A", "N"⟩,
   ⟨⟨4, 0, 0⟩, "C5", "A", 1, "A", "C"⟩,
   ⟨⟨5, 0, 0⟩, "C6", "A", 1, "A", "C"⟩,
   wN6A,
   ⟨⟨7, 0, 0⟩, "N1", "A", 1, "A", "N"⟩,
   ⟨⟨8, 0, 0⟩, "C2", "A", 1, "A", "C"⟩,
   ⟨⟨9, 0, 0⟩, "N3", "A", 1, "A", "N"⟩,
   ⟨⟨10, 0, 0⟩, "C4", "A", 1, "A", "C"⟩]
/-- The C1* anchor of the second witness residue, 10 Å from the first. -/
def wAnchor2 : PAtom := ⟨⟨0, 0, 10⟩, "C1*", "A", 2, "A", "C"⟩
/-- The N6 atom of the second witness residue, 2 Å from the first N6. -/
def wN6B : PAtom := ⟨⟨6, 0, 2⟩, "N6", "A", 2, "A", "N"⟩
/-- The second witness residue: a complete PDBv2 adenine (atom k at
(k, 0, 2), except its anchor). -/
def wResidue2 : List PAtom :=
  [wAnchor2,
   ⟨⟨1, 0, 2⟩, "N9", "A", 2, "A", "N"⟩,
   ⟨⟨2, 0, 2⟩, "C8", "A", 2, "A", "C"⟩,
   ⟨⟨3, 0, 2⟩, "N7", "A", 2, "A", "N"⟩,
   ⟨⟨4, 0, 2⟩, "C5", "A", 2, "A", "C"⟩,
   ⟨⟨5, 0, 2⟩, "C6", "A", 2, "A", "C"⟩,
   wN6B,
   ⟨⟨7, 0, 2⟩, "N1", "A", 2, "A", "N"⟩,
   ⟨⟨8, 0, 2⟩, "C2", "A", 2, "A", "C"⟩,
   ⟨⟨9, 0, 2⟩, "N3", "A", 2, "A", "N"⟩,
   ⟨⟨10, 0, 2⟩, "C4", "A", 2, "A", "C"⟩]
/-- The witness structure: two complete adenine residues in a paired
geometry. -/
def pairedStructure : List PAtom := wResidue1 ++ wResidue2

/-- A rotation by 180° about the x-axis. -/
def rotX180 : Vec3 → Vec3 := fun v => ⟨v.x, -v.y, -v.z⟩

/-- The transformation fitted to the second witness residue: flipped about
the x-axis and shifted 4 Å along z. -/
noncomputable def tauFlip : Transformation := ⟨⟨0, 0, 0⟩, rotX180, ⟨0, 0, 4⟩⟩

/-- Modelled from the spec (§6): a superposition environment for the
witness run whose fitted set is the fixed argument — at the `_match_base`
call site that argument is already "the subset of the first set actually
used after name-matching" — and whose rigid transformation fits the residue
at hand: the identity for residue 1 and the flip for residue 2. -/
noncomputable def soPaired : SuperimposeOracle :=
  ⟨fun fixed _ =>
    (fixed,
     if (fixed.headD default).res_id = 2 then tauFlip else idTransformation)⟩

/-- The transformed standard vectors of the first witness residue. -/
noncomputable def wVecsA : BaseVectors :=
  ⟨applyTransformation idTransformation ⟨0, 0, 0⟩,
   normVector (vsub (applyTransformation idTransformation ⟨1, 0, 0⟩)
     (applyTransformation idTransformation ⟨0, 0, 0⟩)),
   normVector (vsub (applyTransformation idTransformation ⟨0, 1, 0⟩)
     (applyTransformation idTransformation ⟨0, 0, 0⟩)),
   normVector (vsub (applyTransformation idTransformation ⟨0, 0, 1⟩)
     (applyTransformation idTransformation ⟨0, 0, 0⟩)),
   stdAdenine.ringCenters.map (applyTransformation idTransformation)⟩

/-- The transformed standard vectors of the second witness residue. -/
noncomputable def wVecsB : BaseVectors :=
  ⟨applyTransformation tauFlip ⟨0, 0, 0⟩,
   normVector (vsub (applyTransformation tauFlip ⟨1, 0, 0⟩)
     (applyTransformation tauFlip ⟨0, 0, 0⟩)),
   normVector (vsub (applyTransformation tauFlip ⟨0, 1, 0⟩)
     (applyTransformation tauFlip ⟨0, 0, 0⟩)),
   normVector (vsub (applyTransformation tauFlip ⟨0, 0, 1⟩)
     (applyTransformation tauFlip ⟨0, 0, 0⟩)),
   stdAdenine.ringCenters.map (applyTransformation tauFlip)⟩

/-- The matched data of the first witness residue: the complete residue,
the donor mask (N9, N6), the acceptor mask (N9, N7, N6, N1, N3), no
explicit hydrogens, and the identity-transformed standard vectors. -/
noncomputable def wMatchedA : MatchedBase :=
  ⟨wResidue1,
   [false, true, false, false, false, false, true, false, false, false,
    false],
   [false, true, false, true, false, false, true, true, false, true, false],
   false, wVecsA⟩

/-- The matched data of the second witness residue. -/
noncomputable def wMatchedB : MatchedBase :=
  ⟨wResidue2,
   [false, true, false, false, false, false, true, false, false, false,
    false],
   [false, true, false, true, false, false, true, true, false, true, false],
   false, wVecsB⟩

/-- Origin of the first witness frame. -/
theorem wVecsA_origin : wVecsA.origin = ⟨0, 0, 0⟩ := by
  show applyTransformation idTransformation ⟨0, 0, 0⟩ = _
  unfold applyTransformation idTransformation
  apply Vec3.ext_components <;> norm_num [vadd]

/-- The x-axis of the first witness frame. -/
theorem wVecsA_xv : wVecsA.xv = ⟨1, 0, 0⟩ := by
  show normVector (vsub (applyTransformation idTransformation ⟨1, 0, 0⟩)
    (applyTransformation idTransformation ⟨0, 0, 0⟩)) = _
  have h1 : vsub (applyTransformation idTransformation ⟨1, 0, 0⟩)
      (applyTransformation idTransformation ⟨0, 0, 0⟩) = ⟨1, 0, 0⟩ := by
    unfold applyTransformation idTransformation
    apply Vec3.ext_components <;> norm_num [vadd, vsub]
  rw [h1]
  exact normVector_of_unit (by norm_num [dot3])

/-- The y-axis of the first witness frame. -/
theorem wVecsA_yv : wVecsA.yv = ⟨0, 1, 0⟩ := by
  show normVector (vsub (applyTransformation idTransformation ⟨0, 1, 0⟩)
    (applyTransformation idTransformation ⟨0, 0, 0⟩)) = _
  have h1 : vsub (applyTransformation idTransformation ⟨0, 1, 0⟩)
      (applyTransformation idTransformation ⟨0, 0, 0⟩) = ⟨0, 1, 0⟩ := by
    unfold applyTransformation idTransformation
    apply Vec3.ext_components <;> norm_num [vadd, vsub]
  rw [h1]
  exact normVector_of_unit (by norm_num [dot3])

/-- The z-axis of the first witness frame. -/
theorem wVecsA_zv : wVecsA.zv = ⟨0, 0, 1⟩ := by
  show normVector (vsub (applyTransformation idTransformation ⟨0, 0, 1⟩)
    (applyTransformation idTransformation ⟨0, 0, 0⟩)) = _
  have h1 : vsub (applyTransformation idTransformation ⟨0, 0, 1⟩)
      (applyTransformation idTransformation ⟨0, 0, 0⟩) = ⟨0, 0, 1⟩ := by
    unfold applyTransformation idTransformation
    apply Vec3.ext_components <;> norm_num [vadd, vsub]
  rw [h1]
  exact normVector_of_unit (by norm_num [dot3])

/-- Origin of the second witness frame. -/
theorem wVecsB_origin : wVecsB.origin = ⟨0, 0, 4⟩ := by
  show applyTransformation tauFlip ⟨0, 0, 0⟩ = _
  unfold applyTransformation tauFlip rotX180
  apply Vec3.ext_components <;> norm_num [vadd]

/-- The z-axis of the second witness frame (flipped). -/
theorem wVecsB_zv : wVecsB.zv = ⟨0, 0, -1⟩ := by
  show normVector (vsub (applyTransformation tauFlip ⟨0, 0, 1⟩)
    (applyTransformation tauFlip ⟨0, 0, 0⟩)) = _
  have h1 : vsub (applyTransformation tauFlip ⟨0, 0, 1⟩)
      (applyTransformation tauFlip ⟨0, 0, 0⟩) = ⟨0, 0, -1⟩ := by
    unfold applyTransformation tauFlip rotX180
    apply Vec3.ext_components <;> norm_num [vadd, vsub]
  rw [h1]
  exact normVector_of_unit (by norm_num [dot3])

/-- The witness frames are anti-parallel, so the stacking sub-check fails
its angle criterion and reports no stacking. -/
theorem checkBaseStacking_paired : checkBaseStacking wVecsA wVecsB = false := by
  have hz : dot3 wVecsA.zv wVecsB.zv = -1 := by
    rw [wVecsA_zv, wVecsB_zv]
    norm_num [dot3]
  have hgt : ¬ Real.arccos (dot3 wVecsA.zv wVecsB.zv) ≤ 23 * Real.pi / 180 := by
    rw [hz, Real.arccos_neg_one]
    intro hle
    nlinarith [Real.pi_pos]
  unfold checkBaseStacking
  simp only []
  split_ifs with h1
  · rfl
  · rfl

/-- The witness bases carry a plausible N6–N6 hydrogen bond (both N6
atoms sit at template position 6 of their residues, 2 Å apart). -/
theorem checkHbonds_paired : checkHbonds wMatchedA wMatchedB = true := by
  have hd : distance wN6B.coord wN6A.coord ≤ 4.0 := by
    have h2 : distance wN6B.coord wN6A.coord = 2 := by
      apply distance_eq_of_sq (by norm_num)
      norm_num [wN6A, wN6B]
    rw [h2]
    norm_num
  unfold checkHbonds
  apply List.any_eq_true.2
  refine ⟨(wMatchedA, wMatchedB), by simp, ?_⟩
  apply List.any_eq_true.2
  refine ⟨wN6A, mem_maskFilter.2 ⟨6, rfl, rfl⟩, ?_⟩
  apply List.any_eq_true.2
  refine ⟨wN6B, mem_maskFilter.2 ⟨6, rfl, rfl⟩, ?_⟩
  exact decide_eq_true hd

/-- The witness pair passes all five DSSR criteria. -/
theorem dssrAccept_paired : dssrAccept hbZero wMatchedA wMatchedB = true := by
  have hva : wMatchedA.vectors = wVecsA := rfl
  have hvb : wMatchedB.vectors = wVecsB := rfl
  have hdor : distance (⟨0, 0, 0⟩ : Vec3) ⟨0, 0, 4⟩ = 4 := by
    apply distance_eq_of_sq (by norm_num)
    norm_num
  have hsol : solveFirst ⟨1, 0, 0⟩ ⟨0, 1, 0⟩ (vsmul (-1) (⟨0, 0, 1⟩ : Vec3))
      (vsub (⟨0, 0, 4⟩ : Vec3) ⟨0, 0, 0⟩) = 0 := by
    unfold solveFirst det3 vsmul vsub
    norm_num
  have hint : vadd (⟨0, 0, 4⟩ : Vec3) (vsmul 0 (⟨0, 0, 1⟩ : Vec3)) = ⟨0, 0, 4⟩ := by
    unfold vadd vsmul
    apply Vec3.ext_components <;> norm_num
  have hdot : dot3 (⟨0, 0, 1⟩ : Vec3) ⟨0, 0, -1⟩ = -1 := by norm_num [dot3]
  have hpi : Real.pi ≥ 115 * Real.pi / 180 := by nlinarith [Real.pi_pos]
  have hca : wMatchedA.containsHydrogens = false := rfl
  have hcb : wMatchedB.containsHydrogens = false := rfl
  unfold dssrAccept
  simp only []
  rw [hva, hvb, wVecsA_origin, wVecsA_xv, wVecsA_yv, wVecsA_zv,
    wVecsB_origin, wVecsB_zv, hdor]
  rw [if_neg (not_not_intro (by norm_num : (4 : ℝ) ≤ 15))]
  rw [hsol, hint, distance_self]
  rw [if_neg (not_not_intro (by norm_num : (0 : ℝ) ≤ 2.5))]
  rw [hdot, Real.arccos_neg_one]
  rw [if_neg (not_not_intro hpi)]
  rw [checkBaseStacking_paired]
  rw [if_neg (by simp : ¬ (false = true))]
  rw [hca, hcb]
  rw [if_neg (by simp : ¬ ((false && false) = true))]
  rw [if_neg (not_not_intro checkHbonds_paired)]

/-- The full pipeline accepts the witness pair. -/
theorem getBasepairs_paired :
    getBasepairs soPaired hbZero nucAll pairedStructure 3 =
      Except.ok [candOf wAnchor1 wAnchor2] := by
  have hd : distance wAnchor1.coord wAnchor2.coord = 10 := by
    apply distance_eq_of_sq (by norm_num)
    norm_num [wAnchor1, wAnchor2]
  have hd2 : distance wAnchor2.coord wAnchor1.coord = 10 := by
    apply distance_eq_of_sq (by norm_num)
    norm_num [wAnchor1, wAnchor2]
  have hcands : proximateCandidates nucAll pairedStructure 15 9 =
      [candOf wAnchor1 wAnchor2] :=
    proximateCandidates_pair rfl hd hd2 (by norm_num) (by norm_num)
      (by norm_num)
  have hA : matchBase soPaired wResidue1 3 = Except.ok wMatchedA := rfl
  have hB : matchBase soPaired wResidue2 3 = Except.ok wMatchedB := rfl
  have hcheck : checkDssrCriteria soPaired hbZero
      (filterResidues pairedStructure (candOf wAnchor1 wAnchor2).res_id1
        (candOf wAnchor1 wAnchor2).chain_id1)
      (filterResidues pairedStructure (candOf wAnchor1 wAnchor2).res_id2
        (candOf wAnchor1 wAnchor2).chain_id2) 3 = Except.ok true := by
    show checkDssrCriteria soPaired hbZero wResidue1 wResidue2 3 =
      Except.ok true
    unfold checkDssrCriteria
    rw [hA, hB]
    show Except.ok (dssrAccept hbZero wMatchedA wMatchedB) = Except.ok true
    rw [dssrAccept_paired]
  unfold getBasepairs
  rw [hcands]
  unfold basepairLoop
  rw [hcheck]
  rfl

/-- Witness for C8 at the accepted witness pair: the run succeeds, the pair
`(1, "A", 2, "A")` is reported, its residues are distinct, and the reversed
pair is not reported. -/
theorem getBasepairs_no_reversed_pair_witness :
    getBasepairs soPaired hbZero nucAll pairedStructure 3 =
      Except.ok [candOf wAnchor1 wAnchor2] ∧
    candOf wAnchor1 wAnchor2 ∈ [candOf wAnchor1 wAnchor2] ∧
    ¬ ((candOf wAnchor1 wAnchor2).res_id1 = (candOf wAnchor1 wAnchor2).res_id2 ∧
       (candOf wAnchor1 wAnchor2).chain_id1 = (candOf wAnchor1 wAnchor2).chain_id2) ∧
    revCand (candOf wAnchor1 wAnchor2) ∉ [candOf wAnchor1 wAnchor2] :=
  ⟨getBasepairs_paired, List.mem_singleton.2 rfl, by decide,
   getBasepairs_no_reversed_pair soPaired hbZero nucAll pairedStructure 3
     [candOf wAnchor1 wAnchor2] (candOf wAnchor1 wAnchor2) getBasepairs_paired
     (List.mem_singleton.2 rfl) (by decide)⟩
